import Mathlib

/-
Shallow embedding of the upload/session orchestration core of src/App.js
(Court Document Analyzer). The React state hooks become fields of AppState;
each event handler becomes a pure state-transition function parameterised by
the outcomes of its network calls; the list of NetCall values records which
remote endpoints a handler invoked, in order.
-/

namespace CourtDocApp

/-- Role of a chat turn: the source uses the strings "user" and "assistant". -/
inductive Role where
  | user
  | assistant
deriving DecidableEq, Repr

/-- A JavaScript value as it can appear in a chat turn content: either a
string or the undefined value (res.data.reply when the body lacks reply). -/
inductive JsVal where
  | undef
  | str (s : String)
deriving DecidableEq, Repr

/-- One entry of the chatLog array: an object with role and content. -/
structure ChatMsg where
  role : Role
  content : JsVal
deriving DecidableEq, Repr

/-- The uploadStatus hook holds null, the string "success" or "failed";
null is modelled by Option.none around this type. -/
inductive UploadStatus where
  | success
  | failed
deriving DecidableEq, Repr

/-- The component state: one field per useState hook of App.js. The selected
file is represented by its name (its content never matters to the core). -/
structure AppState where
  file : Option String
  summary : String
  error : String
  userMessage : String
  chatLog : List ChatMsg
  documentId : String
  filename : String
  isUploading : Bool
  uploadStatus : Option UploadStatus
deriving DecidableEq, Repr

/-- A network call made by a handler, with the data that identifies it. -/
inductive NetCall where
  | health
  | upload (file : String)
  | chat (message : String) (caseId : String)
deriving DecidableEq, Repr

/-- An axios transport error as seen by the retry condition: its code string
and whether a response was received (err.response). -/
structure TransportError where
  code : String
  response : Option String
deriving DecidableEq, Repr

/-- axios-retry configuration, line 7 of App.js: retries: 3. -/
def retries : Nat := 3

/-- axios-retry configuration, line 8 of App.js:
retryDelay: (retryCount) => retryCount * 1000. -/
def retryDelay (retryCount : Nat) : Nat := retryCount * 1000

/-- axios-retry configuration, lines 9-11 of App.js: retry when the error
code is ECONNREFUSED or no response was received. -/
def retryCondition (e : TransportError) : Bool :=
  e.code = "ECONNREFUSED" || e.response.isNone

/-- The body of a transport-successful upload response. notAnObject covers
every body that is falsy or whose typeof is not object (the validation at
lines 80-82 throws on it); obj covers the object case, each field possibly
absent. -/
inductive UploadBody where
  | notAnObject
  | obj (summary : Option String) (case_id : Option String)
      (filename : Option String)
deriving DecidableEq, Repr

/-- A failed upload transport call, as consumed by the catch block at lines
90-104: the optional service-reported error string (err.response?.data?.error)
and whether err.message contains the Access-Control marker. -/
structure UploadErr where
  respError : Option String
  msgHasAccessControl : Bool
deriving DecidableEq, Repr

/-- Environment of one handleUpload run: what the health probe resolves to
and what the upload transport call resolves to. -/
structure UploadEnv where
  healthUp : Bool
  uploadResult : Except UploadErr UploadBody

/-- The error string set at line 50 of App.js. -/
def noFileMsg : String := "Please select a file to upload."

/-- The error string set at line 62 of App.js. -/
def serverDownMsg : String :=
  "Backend server is not running. Please start the server on http://localhost:5001 and try again."

/-- The CORS error string set at line 101 of App.js. -/
def corsUploadMsg : String :=
  "CORS error: The frontend port does not match the allowed origin in the backend. Check the browser console for details."

/-- The generic upload error string set at line 102 of App.js. -/
def genericUploadMsg : String := "An error occurred during the upload process."

/-- The error string set at line 113 of App.js. -/
def emptyMessageMsg : String := "Please enter a message to proceed."

/-- The generic chat error string at line 139 of App.js. -/
def genericChatMsg : String := "An error occurred while processing your request."

/-- The default summary at line 84 of App.js. -/
def noSummaryMsg : String := "No summary available."

/-- JavaScript truthiness fallback for string-valued expressions: v or-else d,
where an absent value and the empty string are both falsy. -/
def orDefault (v : Option String) (d : String) : String :=
  match v with
  | some s => if s = "" then d else s
  | none => d

/-- Error message chosen by the catch block at lines 98-103 of App.js:
err.response data error if present and truthy, else the CORS message when
err.message mentions Access-Control, else the generic message. -/
def classifyUploadError (e : UploadErr) : String :=
  orDefault e.respError
    (if e.msgHasAccessControl then corsUploadMsg else genericUploadMsg)

/-- checkServerHealth, lines 26-38 of App.js: resolves to a boolean, never
throws, and performs exactly one health call. -/
def checkServerHealth (env : UploadEnv) : Bool × List NetCall :=
  (env.healthUp, [NetCall.health])

/-- handleUpload, lines 48-108 of App.js, as a transition on AppState paired
with the network calls it performs. -/
def handleUpload (env : UploadEnv) (s : AppState) : AppState × List NetCall :=
  match s.file with
  | none =>
    ({ s with error := noFileMsg, uploadStatus := some UploadStatus.failed }, [])
  | some f =>
    let s1 : AppState :=
      { s with isUploading := true, error := "", uploadStatus := none }
    let probe := checkServerHealth env
    if !probe.1 then
      ({ s1 with error := serverDownMsg, isUploading := false,
                 uploadStatus := some UploadStatus.failed }, probe.2)
    else
      match env.uploadResult with
      | Except.ok (UploadBody.obj sm cid fn) =>
        ({ s1 with summary := orDefault sm noSummaryMsg,
                   documentId := orDefault cid "",
                   filename := orDefault fn f,
                   chatLog := [],
                   error := "",
                   uploadStatus := some UploadStatus.success,
                   isUploading := false },
         probe.2 ++ [NetCall.upload f])
      | Except.ok UploadBody.notAnObject =>
        ({ s1 with error := genericUploadMsg,
                   uploadStatus := some UploadStatus.failed,
                   isUploading := false },
         probe.2 ++ [NetCall.upload f])
      | Except.error e =>
        ({ s1 with error := classifyUploadError e,
                   uploadStatus := some UploadStatus.failed,
                   isUploading := false },
         probe.2 ++ [NetCall.upload f])

/-- A transport-successful chat response body: its reply field, absent when
the body lacks it. -/
structure ChatResp where
  reply : Option String
deriving DecidableEq, Repr

/-- A failed chat transport call as consumed by the catch block at lines
133-142: the optional service-reported error string. -/
structure ChatErr where
  respError : Option String
deriving DecidableEq, Repr

/-- Reading a possibly absent field of a response object: absent gives the
undefined value, present gives the string. -/
def jsField (v : Option String) : JsVal :=
  match v with
  | none => JsVal.undef
  | some s => JsVal.str s

/-- Error message chosen at line 139 of App.js:
err.response?.data?.error or the generic chat message. -/
def classifyChatError (e : ChatErr) : String :=
  orDefault e.respError genericChatMsg

/-- The guard at line 112 of App.js: a string is rejected when
userMessage.trim() is falsy, i.e. when every character is whitespace
(equivalently the string is empty). -/
def isBlank (s : String) : Bool :=
  s.data.all Char.isWhitespace

/-- handleSendMessage, lines 111-143 of App.js, as a transition on AppState
paired with the network calls it performs. The chat request carries the
message text captured before the input is cleared, and case_id is whatever
documentId currently holds. -/
def handleSendMessage (env : Except ChatErr ChatResp) (s : AppState) :
    AppState × List NetCall :=
  if isBlank s.userMessage then
    ({ s with error := emptyMessageMsg }, [])
  else
    let newChatLog := s.chatLog ++ [⟨Role.user, JsVal.str s.userMessage⟩]
    let s1 : AppState :=
      { s with chatLog := newChatLog, userMessage := "", error := "" }
    match env with
    | Except.ok r =>
      ({ s1 with chatLog := newChatLog ++ [⟨Role.assistant, jsField r.reply⟩] },
       [NetCall.chat s.userMessage s.documentId])
    | Except.error e =>
      ({ s1 with chatLog :=
                   newChatLog ++ [⟨Role.assistant, JsVal.str (classifyChatError e)⟩],
                 error := classifyChatError e },
       [NetCall.chat s.userMessage s.documentId])

/-- handleFileChange, lines 41-45 of App.js: store the new selection, clear
the error, reset the upload status. -/
def handleFileChange (newFile : String) (s : AppState) : AppState :=
  { s with file := some newFile, error := "", uploadStatus := none }

/-- The initial state of the component (the useState initial values). -/
def emptyState : AppState :=
  { file := none, summary := "", error := "", userMessage := "", chatLog := [],
    documentId := "", filename := "", isUploading := false, uploadStatus := none }

/- Theorems. -/

/-- C1 (amended): handleSendMessage performs no document-identity check: with
an empty documentId and a non-blank message, the call proceeds and invokes
the remote chat endpoint with an empty case_id; no NoActiveDocumentError
exists in the code. -/
theorem C1_no_identity_check (s : AppState) (env : Except ChatErr ChatResp)
    (hdoc : s.documentId = "") (hmsg : isBlank s.userMessage = false) :
    (handleSendMessage env s).2 = [NetCall.chat s.userMessage ""] := by
  cases env <;> simp [handleSendMessage, hmsg, hdoc]

/-- C1 counterexample: from the initial state (no upload ever succeeded,
documentId is empty), ask of a non-blank question does not fail: it invokes
the chat endpoint and the log gains both turns, refuting the claim that the
endpoint is not invoked. -/
theorem C1_counterexample :
    (handleSendMessage (Except.ok ⟨some "Pending"⟩)
        { emptyState with userMessage := "What is the verdict?" }).2 =
      [NetCall.chat "What is the verdict?" ""]
    ∧ (handleSendMessage (Except.ok ⟨some "Pending"⟩)
        { emptyState with userMessage := "What is the verdict?" }).1.chatLog =
      [⟨Role.user, JsVal.str "What is the verdict?"⟩,
       ⟨Role.assistant, JsVal.str "Pending"⟩] := by
  exact ⟨rfl, rfl⟩

/-- C1 witness: the amended theorem at a concrete input. -/
theorem C1_witness :
    (handleSendMessage (Except.error ⟨none⟩)
        { emptyState with userMessage := "hi" }).2 = [NetCall.chat "hi" ""] :=
  C1_no_identity_check { emptyState with userMessage := "hi" }
    (Except.error ⟨none⟩) rfl rfl

/-- C2 (amended): a transport-successful upload response whose body is the
empty object passes the validation at lines 80-82 (it is a truthy object),
so the outcome is Succeeded with an empty DocumentIdentity, the default
summary, and the local file name as filename — not Failed with
MalformedResponseError. -/
theorem C2_empty_object_succeeds (s : AppState) (f : String)
    (hf : s.file = some f) (env : UploadEnv) (hup : env.healthUp = true)
    (hres : env.uploadResult = Except.ok (UploadBody.obj none none none)) :
    (handleUpload env s).1.uploadStatus = some UploadStatus.success
    ∧ (handleUpload env s).1.documentId = ""
    ∧ (handleUpload env s).1.summary = noSummaryMsg
    ∧ (handleUpload env s).1.filename = f := by
  simp [handleUpload, hf, hup, hres, checkServerHealth, orDefault]

/-- Upload environment in which the probe succeeds and the transport call
succeeds with the empty object as body. -/
def emptyBodyEnv : UploadEnv := ⟨true, Except.ok (UploadBody.obj none none none)⟩

/-- C2 counterexample: with a file selected and a transport-successful
response whose body is the empty object, the outcome is Succeeded, refuting
the claimed Failed with MalformedResponseError. -/
theorem C2_counterexample :
    (handleUpload emptyBodyEnv
        { emptyState with file := some "f.pdf" }).1.uploadStatus =
      some UploadStatus.success := rfl

/-- C2 witness: the amended theorem at a concrete input. -/
theorem C2_witness :
    (handleUpload emptyBodyEnv
        { emptyState with file := some "g.pdf" }).1.uploadStatus =
      some UploadStatus.success
    ∧ (handleUpload emptyBodyEnv
        { emptyState with file := some "g.pdf" }).1.documentId = ""
    ∧ (handleUpload emptyBodyEnv
        { emptyState with file := some "g.pdf" }).1.summary = noSummaryMsg
    ∧ (handleUpload emptyBodyEnv
        { emptyState with file := some "g.pdf" }).1.filename = "g.pdf" :=
  C2_empty_object_succeeds { emptyState with file := some "g.pdf" } "g.pdf"
    rfl emptyBodyEnv rfl rfl

/-- C3 (amended): handleFileChange stores the new selection and resets the
upload outcome and the error, but leaves the DocumentIdentity unchanged, so
a stale identity from the previous document remains available to inquiries
until a new upload overwrites it. -/
theorem C3_select_keeps_identity (f : String) (s : AppState) :
    (handleFileChange f s).uploadStatus = none
    ∧ (handleFileChange f s).error = ""
    ∧ (handleFileChange f s).documentId = s.documentId
    ∧ (handleFileChange f s).file = some f := by
  simp [handleFileChange]

/-- C3 counterexample: selecting a new document while documentId is C123
leaves documentId equal to C123, refuting the claim that it is cleared. -/
theorem C3_counterexample :
    (handleFileChange "new.pdf"
        { emptyState with documentId := "C123",
                          uploadStatus := some UploadStatus.success }).documentId
      = "C123"
    ∧ ¬ ((handleFileChange "new.pdf"
        { emptyState with documentId := "C123",
                          uploadStatus := some UploadStatus.success }).documentId
      = "") := by
  exact ⟨rfl, by decide⟩

/-- C4 (amended): handleUpload performs no in-flight guard at the core
level: its behaviour is independent of the isUploading flag, and a call made
while an attempt is in flight still performs the upload network call, so two
rapid core-level invocations produce two upload calls. The only guard is the
presentation layer's disabled button, which is outside the core. -/
theorem C4_no_inflight_guard (env : UploadEnv) (s : AppState) (f : String)
    (hf : s.file = some f) (hup : env.healthUp = true) :
    handleUpload env { s with isUploading := true } =
      handleUpload env { s with isUploading := false }
    ∧ NetCall.upload f ∈ (handleUpload env { s with isUploading := true }).2 := by
  obtain ⟨hu, res⟩ := env
  simp only at hup
  subst hup
  cases res with
  | ok b => cases b <;> simp [handleUpload, hf, checkServerHealth]
  | error e => simp [handleUpload, hf, checkServerHealth]

/-- Upload environment in which the probe succeeds and the upload call
succeeds with a well-formed body. -/
def okUploadEnv : UploadEnv :=
  ⟨true, Except.ok (UploadBody.obj (some "S") (some "C1") none)⟩

/-- C4 counterexample: invoked while an attempt is already in flight
(isUploading is true), handleUpload is not a no-op: it performs the health
call and the upload call, so a second rapid invocation yields a second
upload network call. -/
theorem C4_counterexample :
    (handleUpload okUploadEnv
        { emptyState with file := some "a.pdf", isUploading := true }).2 =
      [NetCall.health, NetCall.upload "a.pdf"] := rfl

/-- C4 witness: the amended theorem at a concrete input. -/
theorem C4_witness :
    handleUpload okUploadEnv
        { emptyState with file := some "b.pdf", isUploading := true } =
      handleUpload okUploadEnv
        { emptyState with file := some "b.pdf", isUploading := false }
    ∧ NetCall.upload "b.pdf" ∈ (handleUpload okUploadEnv
        { emptyState with file := some "b.pdf", isUploading := true }).2 :=
  C4_no_inflight_guard okUploadEnv { emptyState with file := some "b.pdf" }
    "b.pdf" rfl rfl

/-- C5: every ask of a non-blank message appends exactly one Operator turn
carrying the message followed by exactly one Assistant turn — the reply on
success, the classified error message on failure — around exactly one chat
network call. -/
theorem C5_one_pair_per_ask (s : AppState) (env : Except ChatErr ChatResp)
    (h : isBlank s.userMessage = false) :
    (handleSendMessage env s).1.chatLog =
      s.chatLog ++ [⟨Role.user, JsVal.str s.userMessage⟩,
        ⟨Role.assistant,
          match env with
          | Except.ok r => jsField r.reply
          | Except.error e => JsVal.str (classifyChatError e)⟩]
    ∧ (handleSendMessage env s).2 = [NetCall.chat s.userMessage s.documentId] := by
  cases env <;> simp [handleSendMessage, h]

/-- C5 witness: the theorem at a concrete input, on a service error carrying
a Document not found message. -/
theorem C5_witness :
    (handleSendMessage (Except.error ⟨some "Document not found"⟩)
        { emptyState with userMessage := "Q", documentId := "C9" }).1.chatLog =
      [] ++ [⟨Role.user, JsVal.str "Q"⟩,
        ⟨Role.assistant, JsVal.str "Document not found"⟩]
    ∧ (handleSendMessage (Except.error ⟨some "Document not found"⟩)
        { emptyState with userMessage := "Q", documentId := "C9" }).2 =
      [NetCall.chat "Q" "C9"] :=
  C5_one_pair_per_ask { emptyState with userMessage := "Q", documentId := "C9" }
    (Except.error ⟨some "Document not found"⟩) rfl

/-- C6: a transport-successful upload whose body carries summary S, case_id
C123 and filename f.pdf yields outcome Succeeded, DocumentIdentity C123,
summary S and an empty conversation log. -/
theorem C6_successful_upload (s : AppState) (f : String) (hf : s.file = some f)
    (env : UploadEnv) (hup : env.healthUp = true)
    (hres : env.uploadResult =
      Except.ok (UploadBody.obj (some "S") (some "C123") (some "f.pdf"))) :
    (handleUpload env s).1.uploadStatus = some UploadStatus.success
    ∧ (handleUpload env s).1.documentId = "C123"
    ∧ (handleUpload env s).1.summary = "S"
    ∧ (handleUpload env s).1.filename = "f.pdf"
    ∧ (handleUpload env s).1.chatLog = [] := by
  simp [handleUpload, hf, hup, hres, checkServerHealth, orDefault]

/-- Environment of a fully successful upload carrying summary S, case_id
C123 and filename f.pdf. -/
def wellFormedEnv : UploadEnv :=
  ⟨true, Except.ok (UploadBody.obj (some "S") (some "C123") (some "f.pdf"))⟩

/-- A state with a selected file and a nonempty previous conversation. -/
def staleLogState : AppState :=
  { emptyState with file := some "local.pdf",
                    chatLog := [⟨Role.user, JsVal.str "old"⟩] }

/-- C6 witness: the theorem at a concrete input (a state whose previous log
is nonempty, which the success clears). -/
theorem C6_witness :
    (handleUpload wellFormedEnv staleLogState).1.uploadStatus =
      some UploadStatus.success
    ∧ (handleUpload wellFormedEnv staleLogState).1.documentId = "C123"
    ∧ (handleUpload wellFormedEnv staleLogState).1.summary = "S"
    ∧ (handleUpload wellFormedEnv staleLogState).1.filename = "f.pdf"
    ∧ (handleUpload wellFormedEnv staleLogState).1.chatLog = [] :=
  C6_successful_upload staleLogState "local.pdf" rfl wellFormedEnv rfl rfl

/-- C7: when the liveness probe resolves to false, handleUpload fails with
the service-unreachable message and the only network call performed is the
health call — the upload endpoint is never contacted. -/
theorem C7_probe_false (s : AppState) (f : String) (hf : s.file = some f)
    (env : UploadEnv) (hdown : env.healthUp = false) :
    (handleUpload env s).1.uploadStatus = some UploadStatus.failed
    ∧ (handleUpload env s).1.error = serverDownMsg
    ∧ (handleUpload env s).2 = [NetCall.health] := by
  simp [handleUpload, hf, hdown, checkServerHealth]

/-- C7 witness: the theorem at a concrete input. -/
theorem C7_witness :
    (handleUpload ⟨false, Except.error ⟨none, false⟩⟩
        { emptyState with file := some "c.pdf" }).1.uploadStatus =
      some UploadStatus.failed
    ∧ (handleUpload ⟨false, Except.error ⟨none, false⟩⟩
        { emptyState with file := some "c.pdf" }).1.error = serverDownMsg
    ∧ (handleUpload ⟨false, Except.error ⟨none, false⟩⟩
        { emptyState with file := some "c.pdf" }).2 = [NetCall.health] :=
  C7_probe_false { emptyState with file := some "c.pdf" } "c.pdf" rfl
    ⟨false, Except.error ⟨none, false⟩⟩ rfl

/-- C8: the transport retry policy retries exactly the connection-refused or
no-response-received failures, up to 3 retry attempts, with delay
attempt-number times 1000 ms, strictly increasing across attempts. -/
theorem C8_retry_policy (e : TransportError) (m n : Nat) (h : m < n) :
    retries = 3
    ∧ (retryCondition e = true ↔
        (e.code = "ECONNREFUSED" ∨ e.response = none))
    ∧ retryDelay n = n * 1000
    ∧ retryDelay m < retryDelay n := by
  refine ⟨rfl, ?_, rfl, ?_⟩
  · simp [retryCondition, Option.isNone_iff_eq_none]
  · simp only [retryDelay]
    omega

/-- C8 witness: the theorem at a concrete input (a connection-refused error
that nevertheless carried a response, attempts 1 and 2). -/
theorem C8_witness :
    retries = 3
    ∧ (retryCondition ⟨"ECONNREFUSED", some "r"⟩ = true ↔
        (("ECONNREFUSED" : String) = "ECONNREFUSED"
          ∨ (some "r" : Option String) = none))
    ∧ retryDelay 2 = 2 * 1000
    ∧ retryDelay 1 < retryDelay 2 :=
  C8_retry_policy ⟨"ECONNREFUSED", some "r"⟩ 1 2 (by decide)

/-- C9: every handleUpload run whose outcome is Failed leaves the
conversation log, the document identity, the summary and the confirmed
filename exactly as they were before the attempt. -/
theorem C9_failed_upload_frame (env : UploadEnv) (s : AppState)
    (h : (handleUpload env s).1.uploadStatus = some UploadStatus.failed) :
    (handleUpload env s).1.chatLog = s.chatLog
    ∧ (handleUpload env s).1.documentId = s.documentId
    ∧ (handleUpload env s).1.summary = s.summary
    ∧ (handleUpload env s).1.filename = s.filename := by
  obtain ⟨hu, res⟩ := env
  cases hfile : s.file with
  | none => simp [handleUpload, hfile]
  | some f =>
    cases hu with
    | false => simp [handleUpload, hfile, checkServerHealth]
    | true =>
      cases res with
      | error e => simp [handleUpload, hfile, checkServerHealth]
      | ok b =>
        cases b with
        | notAnObject => simp [handleUpload, hfile, checkServerHealth]
        | obj sm cid fn =>
          exact absurd h (by simp [handleUpload, hfile, checkServerHealth])

/-- Environment of a run whose probe fails, used to exhibit a failed upload
with rich prior state. -/
def downEnv : UploadEnv := ⟨false, Except.error ⟨none, false⟩⟩

/-- A state carrying an identity, a summary, a filename and a nonempty log,
from which a failed upload must change nothing of those. -/
def richState : AppState :=
  { emptyState with file := some "w.pdf",
                    documentId := "D1",
                    summary := "Sm",
                    filename := "old.pdf",
                    chatLog := [⟨Role.user, JsVal.str "q"⟩] }

/-- C9 witness: the theorem at a concrete failed run starting from a state
with a nonempty log, an identity, a summary and a filename. -/
theorem C9_witness :
    (handleUpload downEnv richState).1.chatLog = [⟨Role.user, JsVal.str "q"⟩]
    ∧ (handleUpload downEnv richState).1.documentId = "D1"
    ∧ (handleUpload downEnv richState).1.summary = "Sm"
    ∧ (handleUpload downEnv richState).1.filename = "old.pdf" :=
  C9_failed_upload_frame downEnv richState rfl

/-- C10: a transport-successful chat response undergoes no validation: the
value of the reply field — the undefined value when the body lacks it — is
appended verbatim as the Assistant turn content, and no error state is set,
so ask never yields MalformedResponseError. -/
theorem C10_no_chat_validation (s : AppState) (r : ChatResp)
    (h : isBlank s.userMessage = false) :
    (handleSendMessage (Except.ok r) s).1.chatLog =
      s.chatLog ++ [⟨Role.user, JsVal.str s.userMessage⟩,
        ⟨Role.assistant, jsField r.reply⟩]
    ∧ (handleSendMessage (Except.ok r) s).1.error = "" := by
  simp [handleSendMessage, h]

/-- C10 witness: the theorem at a concrete 2xx response whose body lacks the
reply field, showing the undefined value appended as the Assistant content. -/
theorem C10_witness :
    (handleSendMessage (Except.ok ⟨none⟩)
        { emptyState with userMessage := "why" }).1.chatLog =
      [] ++ [⟨Role.user, JsVal.str "why"⟩, ⟨Role.assistant, jsField none⟩]
    ∧ (handleSendMessage (Except.ok ⟨none⟩)
        { emptyState with userMessage := "why" }).1.error = "" :=
  C10_no_chat_validation { emptyState with userMessage := "why" } ⟨none⟩ rfl

end CourtDocApp
